import Mathlib

/-!
Verification of the `synkvaksms` client library (`synkvaksms/client.py`).

The Python module is shallowly embedded: the HTTP layer is modelled by a
`World` holding a response oracle (`net`), a request counter and a wall
clock; each client operation is a pure Lean function threading the `World`
and the `Vaksms` session state explicitly, and additionally returning the
list of observable `Event`s (HTTP requests issued, sleeps performed).
Python exceptions become the `PyError` sum carried in `Except`.

The modules `synkvaksms/exceptions.py` and `synkvaksms/models.py` are not
part of the sources provided; following the specification they are treated
as external collaborators: `VakSmsBadRequest` is the provider-error case of
`PyError` (the spec's taxonomy keeps it distinct from the connectivity
`ValueError`, "never retried"), and the pydantic response models
(`CountNumber`, `CountryList`, `Number`, `MultipleResponse`, `Service`) are
modelled at the JSON boundary: an operation's value is the JSON data the
source would hand to the model constructor.
-/

namespace Synkvaksms

/-- A parsed JSON document, as returned by `requests.Response.json()`.
Objects keep Python's dict insertion order as an association list. -/
inductive Json where
  | null
  | bool (b : Bool)
  | num (n : Int)
  | str (s : String)
  | arr (elems : List Json)
  | obj (fields : List (String × Json))
  deriving Repr

/-- A query-parameter value as built by the Python code: a string, an int
(`'price': 1`), Python `None` (filtered out before sending), or a tuple
(produced by the trailing comma in `get_count_number_list`). -/
inductive Value where
  | vNone
  | vStr (s : String)
  | vInt (n : Int)
  | vTuple (vs : List Value)
  deriving Repr

/-- A Python dict of query parameters, in insertion order. -/
abbrev Params := List (String × Value)

/-- The Python exceptions the embedded code can raise.
`vakSmsBadRequest` models `VakSmsBadRequest` from the absent
`synkvaksms/exceptions.py`; per the spec's error taxonomy it is a provider
error distinct from the built-in `ValueError` used for connectivity and
validation failures, and is therefore not caught by `except ValueError`. -/
inductive PyError where
  | valueError (msg : String)
  | typeError (msg : String)
  | keyError (k : String)
  | indexError
  | attributeError (msg : String)
  | vakSmsBadRequest (err : Json)
  deriving Repr

/-- Outcome of one `requests.get` call: a network-level failure
(`requests.exceptions.RequestException`, covering timeout, DNS failure,
connection refused) or a successfully parsed JSON body. -/
inductive NetResult where
  | netFail
  | body (j : Json)
  deriving Repr

/-- The outside world: `net i url ps` is the outcome of the `i`-th HTTP
request of the process when sent to `url` with query parameters `ps`;
`counter` is the index of the next request; `clock` is `time.time()`
(requests are modelled as instantaneous, `time.sleep` advances the clock
by exactly its argument). -/
structure World where
  net : Nat → String → Params → NetResult
  counter : Nat
  clock : Int

/-- Observable side effects: an HTTP GET to a full URL with the query
parameters actually sent, or a `time.sleep`. -/
inductive Event where
  | httpGet (url : String) (ps : Params)
  | sleep (secs : Int)
  deriving Repr

/-- The `Vaksms` client session state (`__init__`): `api_key` models
`self._api_key` (Python string falsiness = the empty string), `base_url`
models `self._base_url`, `timeout` models `self._timeout`.  `oid` models
Python object identity: `cachetools`' default cache key hashes the bound
method's arguments including `self`, and two distinct sessions are distinct
objects regardless of field values, while mutating `_base_url` does not
change the object's identity. -/
structure Vaksms where
  oid : Nat
  api_key : String
  base_url : Option String
  timeout : Int
  deriving Repr, DecidableEq

/-- First-match association-list lookup, the model of Python dict lookup
(`d[k]` / `d.get(k)`) and of a cache lookup. -/
def lookupKey {K V : Type} [DecidableEq K] : List (K × V) → K → Option V
  | [], _ => none
  | (k2, v) :: rest, k => if k = k2 then some v else lookupKey rest k

/-- Python dict item assignment `d[k] = v`: overwrite in place if the key
exists, otherwise append (insertion order). -/
def objSet (fs : List (String × Json)) (k : String) (v : Json) : List (String × Json) :=
  if fs.any (fun p => p.1 = k) then
    fs.map (fun p => if p.1 = k then (k, v) else p)
  else fs ++ [(k, v)]

/-- Python truthiness of a JSON value (`bool(x)` for the decoded value). -/
def pyTruthy : Json → Bool
  | Json.null => false
  | Json.bool b => b
  | Json.num n => n != 0
  | Json.str s => s != ""
  | Json.arr [] => false
  | Json.arr (_ :: _) => true
  | Json.obj [] => false
  | Json.obj (_ :: _) => true

/-- The body-classification step of `_send_request` (client.py lines
20-23): `if not isinstance(response, dict) or not response.get('error'):
return response else: raise VakSmsBadRequest(response['error'])`. -/
def classifyResponse : Json → Except PyError Json
  | Json.obj fs =>
      match lookupKey fs "error" with
      | some e =>
          if pyTruthy e then Except.error (PyError.vakSmsBadRequest e)
          else Except.ok (Json.obj fs)
      | none => Except.ok (Json.obj fs)
  | j => Except.ok j

/-- `_send_request(base_url, uri, **kwargs)` (client.py lines 16-25).
`base_url + uri` raises `TypeError` when `base_url` is `None` (before any
HTTP request is attempted); a `requests` exception is re-raised as
`ValueError('Invalid Base URL')`; otherwise the parsed body is classified.
Returns (result, world after, events issued). -/
def _send_request (w : World) (base_url : Option String) (uri : String) (ps : Params) :
    Except PyError Json × World × List Event :=
  match base_url with
  | none =>
      (Except.error (PyError.typeError "unsupported operand types for add"), w, [])
  | some b =>
      let url := b ++ uri
      let w2 : World := { w with counter := w.counter + 1 }
      match w.net w.counter url ps with
      | NetResult.netFail =>
          (Except.error (PyError.valueError "Invalid Base URL"), w2, [Event.httpGet url ps])
      | NetResult.body j => (classifyResponse j, w2, [Event.httpGet url ps])

/-- The fixed mirror candidate list (client.py line 312). -/
def base_urls : List String :=
  ["https://vak-sms.com", "https://moresms.net", "https://vaksms.ru"]

/-- The `{k: v for k, v in params.items() if v is not None}` filter
(client.py line 307). -/
def filterNone (ps : Params) : Params :=
  ps.filter fun kv =>
    match kv.2 with
    | Value.vNone => false
    | _ => true

/-- The query parameters actually sent by `__create_request`: `apiKey` is
appended when `self._api_key` is truthy (client.py lines 302-303), then
`None`-valued entries are dropped (line 307). -/
def sentParams (api_key : String) (ps : Params) : Params :=
  filterNone (if api_key ≠ "" then ps ++ [("apiKey", Value.vStr api_key)] else ps)

/-- The mirror-discovery loop of `__create_request` (client.py lines
311-322) plus the final fall-through call: each candidate is tried in
order; a `ValueError` (connectivity failure) is logged and the loop
continues; success pins the candidate and returns; any other exception
(in particular the provider error `VakSmsBadRequest`) propagates without
pinning.  When the list is exhausted the code falls through to
`_send_request(self._base_url, uri, **kwargs)` with `self._base_url` still
`None`.  Returns (result, pinned base, world after, events). -/
def try_mirrors (uri : String) (ps : Params) :
    List String → World → Except PyError Json × Option String × World × List Event
  | [], w =>
      let (r, w2, ev) := _send_request w none uri ps
      (r, none, w2, ev)
  | b :: rest, w =>
      match _send_request w (some b) uri ps with
      | (Except.ok j, w2, ev) => (Except.ok j, some b, w2, ev)
      | (Except.error (PyError.valueError _), w2, ev) =>
          let (r2, pin, w3, ev2) := try_mirrors uri ps rest w2
          (r2, pin, w3, ev ++ ev2)
      | (Except.error e, w2, ev) => (Except.error e, none, w2, ev)

/-- `Vaksms.__create_request` (client.py lines 279-322): validates the API
key, injects it into the parameters, filters `None` values, and either
runs mirror discovery (no base address yet) or sends directly to the
pinned/explicit base address.  Returns (result, session after, world
after, events). -/
def create_request (self : Vaksms) (uri : String) (ps : Params) (api_key_required : Bool)
    (w : World) : Except PyError Json × Vaksms × World × List Event :=
  if api_key_required = true ∧ self.api_key = "" then
    (Except.error (PyError.valueError "API key is required for this method"), self, w, [])
  else
    let sp := sentParams self.api_key ps
    match self.base_url with
    | none =>
        let (r, pin, w2, ev) := try_mirrors uri sp base_urls w
        (r, { self with base_url := pin }, w2, ev)
    | some _ =>
        let (r, w2, ev) := _send_request w self.base_url uri sp
        (r, self, w2, ev)

/-- Python subscripting `j[k]` for a decoded JSON value: a `KeyError` when
the key is missing from a dict, a `TypeError` when the value is not a dict
at all. -/
def getItem (j : Json) (k : String) : Except PyError Json :=
  match j with
  | Json.obj fs =>
      match lookupKey fs k with
      | some v => Except.ok v
      | none => Except.error (PyError.keyError k)
  | _ => Except.error (PyError.typeError "indices must be integers")

/-- `Vaksms.set_status` (client.py lines 164-193) for a plain string
number id: sends `idNum`/`status` and returns `response['status']`. -/
def set_status (self : Vaksms) (number_id : String) (status : String) (w : World) :
    Except PyError Json × Vaksms × World × List Event :=
  let ps : Params := [("idNum", Value.vStr number_id), ("status", Value.vStr status)]
  match create_request self "/api/setStatus" ps true w with
  | (Except.ok j, s2, w2, ev) => (getItem j "status", s2, w2, ev)
  | (Except.error e, s2, w2, ev) => (Except.error e, s2, w2, ev)

/-- The `while time.time() - start_time < timeout` loop of
`Vaksms.wait_sms_code` (client.py lines 244-251): sleep `per_attempt`,
request `/api/getSmsCode/`, read `response['smsCode']`, and return its
last element as soon as it is a list.  The loop is given fuel to make it
total: `wait_sms_code` passes `timeout.natAbs + 1`, which exceeds the
number of iterations whenever `per_attempt ≥ 1` (each iteration advances
the clock by `per_attempt`), so the fuel-exhaustion branch is unreachable
for the argument values the source is ever run with. -/
def wait_loop (ps : Params) (timeout per_attempt : Int) (start_time : Int) :
    Nat → Vaksms → World → Except PyError (Option Json) × Vaksms × World × List Event
  | 0, self, w => (Except.error (PyError.valueError "loop fuel exhausted"), self, w, [])
  | fuel + 1, self, w =>
      if w.clock - start_time < timeout then
        let w1 : World := { w with clock := w.clock + per_attempt }
        match create_request self "/api/getSmsCode/" ps true w1 with
        | (Except.error e, s2, w2, ev) =>
            (Except.error e, s2, w2, Event.sleep per_attempt :: ev)
        | (Except.ok response, s2, w2, ev) =>
            match getItem response "smsCode" with
            | Except.error e => (Except.error e, s2, w2, Event.sleep per_attempt :: ev)
            | Except.ok sms =>
                match sms with
                | Json.arr l =>
                    (match l.getLast? with
                     | some x => (Except.ok (some x), s2, w2, Event.sleep per_attempt :: ev)
                     | none => (Except.error PyError.indexError, s2, w2,
                                Event.sleep per_attempt :: ev))
                | _ =>
                    let (r, s3, w3, ev2) :=
                      wait_loop ps timeout per_attempt start_time fuel s2 w2
                    (r, s3, w3, Event.sleep per_attempt :: (ev ++ ev2))
      else
        (Except.ok none, self, w, [])

/-- `Vaksms.wait_sms_code` (client.py lines 220-251) for a plain string
number id: validates the API key, performs the `send` status transition,
then polls `/api/getSmsCode/` until the code field is a list or the
timeout elapses (returning `none` in the latter case). -/
def wait_sms_code (self : Vaksms) (number_id : String) (timeout per_attempt : Int)
    (w : World) : Except PyError (Option Json) × Vaksms × World × List Event :=
  if self.api_key = "" then
    (Except.error (PyError.valueError "API key is required for this method"), self, w, [])
  else
    match set_status self number_id "send" w with
    | (Except.error e, s2, w2, ev) => (Except.error e, s2, w2, ev)
    | (Except.ok _, s2, w2, ev) =>
        let ps : Params := [("idNum", Value.vStr number_id), ("all", Value.vStr "None")]
        let (r, s3, w3, ev2) :=
          wait_loop ps timeout per_attempt w2.clock (timeout.natAbs + 1) s2 w2
        (r, s3, w3, ev ++ ev2)

/-- The `service` argument of `get_number`: a single service name or a
Python list of service names. -/
inductive ServiceArg where
  | one (s : String)
  | many (l : List String)
  deriving Repr

/-- The `if isinstance(service, list): service = service[0] + ',' + service[1]`
normalization of `get_number` (client.py lines 117-118); indexing a list
shorter than two elements raises `IndexError`. -/
def combineService : ServiceArg → Except PyError String
  | ServiceArg.one s => Except.ok s
  | ServiceArg.many (a :: b :: _) => Except.ok (a ++ "," ++ b)
  | ServiceArg.many _ => Except.error PyError.indexError

/-- The parameter dict built by `get_number` (client.py lines 120-126),
after service-list normalization. -/
def get_number_params (service : String) (operator_ : Option String) (rent : Bool)
    (country : String) (soft_id : String) : Params :=
  [("service", Value.vStr service),
   ("operator", match operator_ with | some s => Value.vStr s | none => Value.vNone),
   ("rent", Value.vStr (if rent then "true" else "false")),
   ("country", Value.vStr country),
   ("softId", Value.vStr soft_id)]

/-- `Vaksms.get_number` (client.py lines 101-135).  A list body is
returned as is (`MultipleResponse(response).root` of the external model
layer is the decoded list itself); a dict body gets its `service` entry
set and is the data handed to the external `Number` model; `response`
being any other value makes `response['service'] = service` raise
`TypeError`. -/
def get_number (self : Vaksms) (service : ServiceArg) (operator_ : Option String)
    (rent : Bool) (country : String) (soft_id : String) (w : World) :
    Except PyError Json × Vaksms × World × List Event :=
  match combineService service with
  | Except.error e => (Except.error e, self, w, [])
  | Except.ok sv =>
      match create_request self "/api/getNumber/"
          (get_number_params sv operator_ rent country soft_id) true w with
      | (Except.error e, s2, w2, ev) => (Except.error e, s2, w2, ev)
      | (Except.ok j, s2, w2, ev) =>
          match j with
          | Json.arr l => (Except.ok (Json.arr l), s2, w2, ev)
          | Json.obj fs => (Except.ok (Json.obj (objSet fs "service" (Json.str sv))), s2, w2, ev)
          | _ => (Except.error (PyError.typeError "does not support item assignment"), s2, w2, ev)

/-- `list(d.keys())[0]`: the first key of a dict, `IndexError` when empty. -/
def firstKey : List (String × Json) → Except PyError String
  | [] => Except.error PyError.indexError
  | (k, _) :: _ => Except.ok k

/-- The response post-processing of `get_count_number` (client.py lines
84-86): `response['service'] = list(response.keys())[0]`, then
`response['count'] = response[list(response.keys())[0]]`.  The value
handed to the external `CountNumber` model is the resulting dict. -/
def get_count_number_post (j : Json) : Except PyError Json :=
  match j with
  | Json.obj fs =>
      (match firstKey fs with
       | Except.error e => Except.error e
       | Except.ok k1 =>
          let fs1 := objSet fs "service" (Json.str k1)
          match firstKey fs1 with
          | Except.error e => Except.error e
          | Except.ok k2 =>
              match lookupKey fs1 k2 with
              | some v => Except.ok (Json.obj (objSet fs1 "count" v))
              | none => Except.error (PyError.keyError k2))
  | _ => Except.error (PyError.attributeError "keys")

/-- The cache key of `get_count_number`: `cachetools.cached(cache)` with
the default key hashes all positional arguments of the bound function,
i.e. `self` (by object identity, modelled by `oid`) together with
`service`, `operator` and `country`. -/
abbrev CNKey := Nat × String × Option String × String

/-- The process-wide `cache = TTLCache(maxsize=100, ttl=3600)` store
(client.py line 12), modelled as an association list of entries within
their TTL window (expiry and LRU eviction are not modelled; all theorems
concern calls inside the TTL window of an unfilled cache). -/
abbrev CacheCN := List (CNKey × Json)

/-- The parameter dict built by `get_count_number` (client.py lines 76-81). -/
def get_count_number_params (service : String) (operator_ : Option String)
    (country : String) : Params :=
  [("service", Value.vStr service),
   ("operator", match operator_ with | some s => Value.vStr s | none => Value.vNone),
   ("country", Value.vStr country),
   ("price", Value.vInt 1)]

/-- `Vaksms.get_count_number` (client.py lines 62-86) under
`@cached(cache)`: on a key hit the stored value is returned with no
request; on a miss the body runs and only a normal return is stored. -/
def get_count_number (self : Vaksms) (service : String) (operator_ : Option String)
    (country : String) (c : CacheCN) (w : World) :
    Except PyError Json × Vaksms × CacheCN × World × List Event :=
  let k : CNKey := (self.oid, service, operator_, country)
  match lookupKey c k with
  | some v => (Except.ok v, self, c, w, [])
  | none =>
      match create_request self "/api/getCountNumber"
          (get_count_number_params service operator_ country) true w with
      | (Except.error e, s2, w2, ev) => (Except.error e, s2, c, w2, ev)
      | (Except.ok j, s2, w2, ev) =>
          match get_count_number_post j with
          | Except.ok out => (Except.ok out, s2, (k, out) :: c, w2, ev)
          | Except.error e => (Except.error e, s2, c, w2, ev)

/-- The process-wide `cache_countries` store (client.py line 13); the key
of `get_country_list` is `self` alone (object identity). -/
abbrev CacheCountries := List (Nat × Json)

/-- `Vaksms.get_country_list` (client.py lines 88-99) under
`@cached(cache_countries)`.  The value handed to the external
`CountryList` model is the decoded response itself. -/
def get_country_list (self : Vaksms) (c : CacheCountries) (w : World) :
    Except PyError Json × Vaksms × CacheCountries × World × List Event :=
  match lookupKey c self.oid with
  | some v => (Except.ok v, self, c, w, [])
  | none =>
      match create_request self "/api/getCountryList" [] false w with
      | (Except.error e, s2, w2, ev) => (Except.error e, s2, c, w2, ev)
      | (Except.ok j, s2, w2, ev) => (Except.ok j, s2, (self.oid, j) :: c, w2, ev)

/-- The parameter dict built by `get_count_number_list` (client.py lines
263-268): `country`, then `operator` only when truthy, then
`params['rent'] = 'True' if rent else 'False',` whose trailing comma makes
the value the one-element tuple `('True',)` / `('False',)`. -/
def get_count_number_list_params (country : String) (operator_ : Option String)
    (rent : Bool) : Params :=
  ([("country", Value.vStr country)] ++
    (match operator_ with
     | some s => if s ≠ "" then [("operator", Value.vStr s)] else []
     | none => [])) ++
  [("rent", Value.vTuple [Value.vStr (if rent then "True" else "False")])]

/-- One step of the `for service in response.keys()` loop of
`get_count_number_list` (client.py lines 272-275).  Modelled from the
spec for the absent `models.py`: `Service(**response[service][0])` needs
`response[service]` to be a non-empty list whose first element is a dict
carrying a string `icon`, and `s.icon = self._base_url + s.icon` rewrites
that icon to an absolute URL (`TypeError` when the base address is still
`None`). -/
def service_icon_rewrite (base_url : Option String) (v : Json) : Except PyError Json :=
  match v with
  | Json.arr (first :: _) =>
      (match first with
       | Json.obj fs =>
           (match lookupKey fs "icon" with
            | some (Json.str ic) =>
                (match base_url with
                 | some b => Except.ok (Json.obj (objSet fs "icon" (Json.str (b ++ ic))))
                 | none => Except.error (PyError.typeError "unsupported operand types for add"))
            | _ => Except.error (PyError.attributeError "icon"))
       | _ => Except.error (PyError.typeError "argument after ** must be a mapping"))
  | Json.arr [] => Except.error PyError.indexError
  | _ => Except.error (PyError.typeError "not subscriptable")

/-- The `ret_d` dict built by `get_count_number_list` (client.py lines
271-275), in response key order. -/
def build_ret_d (base_url : Option String) :
    List (String × Json) → Except PyError (List (String × Json))
  | [] => Except.ok []
  | (name, v) :: rest =>
      match service_icon_rewrite base_url v with
      | Except.error e => Except.error e
      | Except.ok s =>
          match build_ret_d base_url rest with
          | Except.error e => Except.error e
          | Except.ok tail => Except.ok ((name, s) :: tail)

/-- The cache key of `get_count_number_list`: `self` (object identity)
with `country`, `operator` and `rent`. -/
abbrev CNLKey := Nat × String × Option String × Bool

/-- The process-wide `cache_all_data` store (client.py line 11). -/
abbrev CacheAllData := List (CNLKey × Json)

/-- `Vaksms.get_count_number_list` (client.py lines 253-277) under
`@cached(cache_all_data)`: builds the params (rent as a one-element
tuple), requests `/api/getCountNumbersList` without requiring an API key,
and rewrites each service's icon against the session's base address as it
stands after the request. -/
def get_count_number_list (self : Vaksms) (country : String) (operator_ : Option String)
    (rent : Bool) (c : CacheAllData) (w : World) :
    Except PyError Json × Vaksms × CacheAllData × World × List Event :=
  let k : CNLKey := (self.oid, country, operator_, rent)
  match lookupKey c k with
  | some v => (Except.ok v, self, c, w, [])
  | none =>
      match create_request self "/api/getCountNumbersList"
          (get_count_number_list_params country operator_ rent) false w with
      | (Except.error e, s2, w2, ev) => (Except.error e, s2, c, w2, ev)
      | (Except.ok j, s2, w2, ev) =>
          match j with
          | Json.obj fs =>
              (match build_ret_d s2.base_url fs with
               | Except.ok out => (Except.ok (Json.obj out), s2, (k, Json.obj out) :: c, w2, ev)
               | Except.error e => (Except.error e, s2, c, w2, ev))
          | _ => (Except.error (PyError.attributeError "keys"), s2, c, w2, ev)

/-- Recognizes a poll request to the SMS-code endpoint of base `b`. -/
def isPoll (b : String) : Event → Bool
  | Event.httpGet url _ => url == b ++ "/api/getSmsCode/"
  | Event.sleep _ => false

/-- Recognizes an HTTP request carrying the `status=send` parameter, i.e.
a `send` status transition. -/
def hasSendStatus : Params → Bool
  | [] => false
  | (k, Value.vStr s) :: rest => (k == "status" && s == "send") || hasSendStatus rest
  | _ :: rest => hasSendStatus rest

/-- Recognizes a `send` status-transition request among events. -/
def isSendStatus : Event → Bool
  | Event.httpGet _ ps => hasSendStatus ps
  | Event.sleep _ => false

/-- A concrete world where every request to every host fails at the
network level. -/
def wDown : World := ⟨fun _ _ _ => NetResult.netFail, 0, 0⟩

/-- A concrete world where every request is answered with the provider
error body `{"error": "x"}`. -/
def wProviderError : World :=
  ⟨fun _ _ _ => NetResult.body (Json.obj [("error", Json.str "x")]), 0, 0⟩

/-- A concrete world where every request is answered with the count body
`{"tg": 5}`. -/
def wCountNumbers : World :=
  ⟨fun _ _ _ => NetResult.body (Json.obj [("tg", Json.num 5)]), 0, 0⟩

/-- A concrete world for polling: the status endpoint of base `"B"`
answers `{"status": "ok"}` and every other request answers
`{"smsCode": null}` — a provider that never returns a code. -/
def wNeverCode : World :=
  ⟨fun _ url _ =>
    if url = "B/api/setStatus" then NetResult.body (Json.obj [("status", Json.str "ok")])
    else NetResult.body (Json.obj [("smsCode", Json.null)]), 0, 100⟩

/-- A concrete world for polling: the status endpoint of base `"B"`
answers `{"status": "ok"}`, the first poll (request index 1) answers
`{"smsCode": null}`, and later polls answer
`{"smsCode": ["1111", "2222"]}`. -/
def wSecondPollList : World :=
  ⟨fun i url _ =>
    if url = "B/api/setStatus" then NetResult.body (Json.obj [("status", Json.str "ok")])
    else if i ≤ 1 then NetResult.body (Json.obj [("smsCode", Json.null)])
    else NetResult.body (Json.obj [("smsCode", Json.arr [Json.str "1111", Json.str "2222"])]),
   0, 0⟩

/-- A concrete world where only the second mirror is reachable for
`/api/getBalance`, and it reports the provider error
`{"error": "no service"}`. -/
def wSecondMirrorProviderError : World :=
  ⟨fun _ url _ =>
    if url = "https://moresms.net/api/getBalance" then
      NetResult.body (Json.obj [("error", Json.str "no service")])
    else NetResult.netFail, 0, 0⟩

/-- A concrete world where only the second mirror is reachable for
`/api/getBalance`, and it answers with a balance payload. -/
def wSecondMirrorOk : World :=
  ⟨fun _ url _ =>
    if url = "https://moresms.net/api/getBalance" then
      NetResult.body (Json.obj [("balance", Json.num 5)])
    else NetResult.netFail, 0, 0⟩

theorem create_request_pinned (self : Vaksms) (bb uri : String) (ps : Params) (req : Bool)
    (w : World) (hb : self.base_url = some bb) (hcond : ¬(req = true ∧ self.api_key = "")) :
    create_request self uri ps req w =
      ((_send_request w (some bb) uri (sentParams self.api_key ps)).1, self,
       { w with counter := w.counter + 1 },
       [Event.httpGet (bb ++ uri) (sentParams self.api_key ps)]) := by
  cases h : w.net w.counter (bb ++ uri) (sentParams self.api_key ps) with
  | netFail => simp [create_request, _send_request, hcond, hb, h]
  | body j => simp [create_request, _send_request, hcond, hb, h]

theorem create_request_discovery (self : Vaksms) (uri : String) (ps : Params) (req : Bool)
    (w : World) (hb : self.base_url = none) (hcond : ¬(req = true ∧ self.api_key = "")) :
    create_request self uri ps req w =
      ((try_mirrors uri (sentParams self.api_key ps) base_urls w).1,
       { self with base_url := (try_mirrors uri (sentParams self.api_key ps) base_urls w).2.1 },
       (try_mirrors uri (sentParams self.api_key ps) base_urls w).2.2.1,
       (try_mirrors uri (sentParams self.api_key ps) base_urls w).2.2.2) := by
  rcases h : try_mirrors uri (sentParams self.api_key ps) base_urls w with ⟨r, pin, w2, ev⟩
  simp [create_request, hcond, hb, h]

theorem try_mirrors_all_fail (uri : String) (ps : Params) (l : List String) (w : World)
    (hfail : ∀ b ∈ l, ∀ n q, w.net n (b ++ uri) q = NetResult.netFail) :
    (try_mirrors uri ps l w).1
        = Except.error (PyError.typeError "unsupported operand types for add") ∧
    (try_mirrors uri ps l w).2.1 = none := by
  induction l generalizing w with
  | nil => exact ⟨rfl, rfl⟩
  | cons b rest ih =>
      have hb := hfail b (List.mem_cons_self b rest) w.counter ps
      have ih2 := ih { w with counter := w.counter + 1 }
        (fun b2 hb2 n q => hfail b2 (List.mem_cons_of_mem b hb2) n q)
      rcases hT : try_mirrors uri ps rest { w with counter := w.counter + 1 } with
        ⟨r2, pin, w3, ev2⟩
      rw [hT] at ih2
      simp only [try_mirrors, _send_request, hb, hT]
      simpa using ih2

theorem try_mirrors_first_ok (uri : String) (ps : Params) (failList rest : List String)
    (bOk : String) (j : Json) (w : World)
    (hfail : ∀ b ∈ failList, ∀ n q, w.net n (b ++ uri) q = NetResult.netFail)
    (hok : ∀ n q, w.net n (bOk ++ uri) q = NetResult.body j)
    (hj : classifyResponse j = Except.ok j) :
    (try_mirrors uri ps (failList ++ bOk :: rest) w).1 = Except.ok j ∧
    (try_mirrors uri ps (failList ++ bOk :: rest) w).2.1 = some bOk := by
  induction failList generalizing w with
  | nil =>
      simp [try_mirrors, _send_request, hok, hj]
  | cons b bs ih =>
      have hb := hfail b (List.mem_cons_self b bs) w.counter ps
      have ih2 := ih { w with counter := w.counter + 1 }
        (fun b2 hb2 n q => hfail b2 (List.mem_cons_of_mem b hb2) n q) hok
      rcases hT : try_mirrors uri ps (bs ++ bOk :: rest) { w with counter := w.counter + 1 } with
        ⟨r2, pin, w3, ev2⟩
      rw [hT] at ih2
      simp only [List.cons_append, try_mirrors, _send_request, hb, List.append_eq, hT]
      simpa using ih2

/-- C1 counterexample: with the first mirror unreachable and the second
mirror answering a provider error (`{"error": "no service"}`), the second
mirror's trial request does not fail at the network level, yet the claim's
"is pinned" is false: the provider error propagates before the pin
assignment runs, and the session's base address stays `None`. -/
theorem c1_counterexample :
    (create_request ⟨0, "key", none, 10⟩ "/api/getBalance" [] true
        wSecondMirrorProviderError).2.1.base_url = none ∧
    (create_request ⟨0, "key", none, 10⟩ "/api/getBalance" [] true
        wSecondMirrorProviderError).1
      = Except.error (PyError.vakSmsBadRequest (Json.str "no service")) :=
  ⟨rfl, rfl⟩

/-- C1 (amended): for a session created without an explicit base address,
the first mirror in the fixed candidate list whose trial request returns a
success payload (neither a network-level failure nor a provider-reported
error) is pinned as the session's base address, and every subsequent
request from that session issues exactly one HTTP request to that pinned
address and leaves the session unchanged, with no re-probing — for every
later world `w2`, including ones where the pinned address now fails with a
connectivity error.  A trial that reaches a mirror but receives a provider
error instead raises that error with nothing pinned (see the
counterexample). -/
theorem c1_first_success_pinned_then_reused
    (oid : Nat) (key : String) (t : Int) (uri : String) (ps : Params)
    (failList rest : List String) (bOk : String) (j : Json) (w : World)
    (hsplit : base_urls = failList ++ bOk :: rest)
    (hkey : key ≠ "")
    (hfail : ∀ b ∈ failList, ∀ n q, w.net n (b ++ uri) q = NetResult.netFail)
    (hok : ∀ n q, w.net n (bOk ++ uri) q = NetResult.body j)
    (hj : classifyResponse j = Except.ok j) :
    (create_request ⟨oid, key, none, t⟩ uri ps true w).1 = Except.ok j ∧
    (create_request ⟨oid, key, none, t⟩ uri ps true w).2.1.base_url = some bOk ∧
    ∀ uri2 ps2 w2,
      (create_request (create_request ⟨oid, key, none, t⟩ uri ps true w).2.1
          uri2 ps2 true w2).2.1
        = (create_request ⟨oid, key, none, t⟩ uri ps true w).2.1 ∧
      (create_request (create_request ⟨oid, key, none, t⟩ uri ps true w).2.1
          uri2 ps2 true w2).2.2.2
        = [Event.httpGet (bOk ++ uri2) (sentParams key ps2)] := by
  have hcond : ¬(true = true ∧ (⟨oid, key, none, t⟩ : Vaksms).api_key = "") := by
    simp [hkey]
  have hd := create_request_discovery ⟨oid, key, none, t⟩ uri ps true w rfl hcond
  have hfo := try_mirrors_first_ok uri (sentParams key ps) failList rest bOk j w hfail hok hj
  rw [← hsplit] at hfo
  have hS : (create_request ⟨oid, key, none, t⟩ uri ps true w).2.1
      = ⟨oid, key, some bOk, t⟩ := by
    rw [hd]
    show ({ oid := oid, api_key := key, base_url := _, timeout := t } : Vaksms) = _
    rw [hfo.2]
  refine ⟨?_, ?_, ?_⟩
  · rw [hd]; exact hfo.1
  · rw [hS]
  · intro uri2 ps2 w2
    have hp := create_request_pinned ⟨oid, key, some bOk, t⟩ bOk uri2 ps2 true w2 rfl
      (by simp [hkey])
    rw [hS, hp]
    exact ⟨rfl, rfl⟩

/-- C1 witness: first mirror down, second mirror answers a balance
payload: the second mirror is pinned, and a later request in a world where
the whole network is down still goes exactly once to the pinned mirror. -/
theorem c1_witness :
    (create_request ⟨0, "key", none, 10⟩ "/api/getBalance" [] true wSecondMirrorOk).1
      = Except.ok (Json.obj [("balance", Json.num 5)]) ∧
    (create_request ⟨0, "key", none, 10⟩ "/api/getBalance" [] true
        wSecondMirrorOk).2.1.base_url = some "https://moresms.net" ∧
    (create_request (create_request ⟨0, "key", none, 10⟩ "/api/getBalance" [] true
        wSecondMirrorOk).2.1 "/api/getBalance" [] true wDown).2.2.2
      = [Event.httpGet ("https://moresms.net" ++ "/api/getBalance") (sentParams "key" [])] := by
  have h := c1_first_success_pinned_then_reused 0 "key" 10 "/api/getBalance" []
    ["https://vak-sms.com"] ["https://vaksms.ru"] "https://moresms.net"
    (Json.obj [("balance", Json.num 5)]) wSecondMirrorOk rfl (by decide)
    (by intro b hb n q
        have hb2 := List.mem_singleton.mp hb
        subst hb2
        rfl)
    (fun n q => rfl) rfl
  exact ⟨h.1, h.2.1, (h.2.2 "/api/getBalance" [] wDown).2⟩

/-- C3 counterexample: with every mirror failing at the network level, the
operation on a session with no explicit base address raises
`TypeError` (from `None + uri` on the post-loop fall-through call), not
the connectivity error `ValueError('Invalid Base URL')` the claim
requires. -/
theorem c3_counterexample :
    (create_request ⟨0, "key", none, 10⟩ "/api/getBalance" [] true wDown).1
      = Except.error (PyError.typeError "unsupported operand types for add") ∧
    (create_request ⟨0, "key", none, 10⟩ "/api/getBalance" [] true wDown).1
      ≠ Except.error (PyError.valueError "Invalid Base URL") := by
  refine ⟨rfl, ?_⟩
  intro h
  rw [show (create_request ⟨0, "key", none, 10⟩ "/api/getBalance" [] true wDown).1
      = Except.error (PyError.typeError "unsupported operand types for add") from rfl] at h
  simp at h

/-- C3 (amended): when a session has no explicit base address and every
candidate mirror fails at the network level, the operation raises a
`TypeError` (concatenating the still-`None` base address with the URI on
the final fall-through request), with no base address pinned — not a
connectivity error. -/
theorem c3_all_mirrors_down_raises_type_error
    (oid : Nat) (key : String) (t : Int) (uri : String) (ps : Params) (w : World)
    (hkey : key ≠ "")
    (hfail : ∀ b ∈ base_urls, ∀ n q, w.net n (b ++ uri) q = NetResult.netFail) :
    (create_request ⟨oid, key, none, t⟩ uri ps true w).1
      = Except.error (PyError.typeError "unsupported operand types for add") ∧
    (create_request ⟨oid, key, none, t⟩ uri ps true w).2.1.base_url = none := by
  have hcond : ¬(true = true ∧ (⟨oid, key, none, t⟩ : Vaksms).api_key = "") := by
    simp [hkey]
  have hd := create_request_discovery ⟨oid, key, none, t⟩ uri ps true w rfl hcond
  have ha := try_mirrors_all_fail uri (sentParams key ps) base_urls w hfail
  refine ⟨?_, ?_⟩
  · rw [hd]; exact ha.1
  · rw [hd]
    show ((⟨oid, key, (try_mirrors uri (sentParams key ps) base_urls w).2.1, t⟩ :
        Vaksms)).base_url = none
    rw [ha.2]

/-- C3 witness: the amended theorem evaluated in the all-down world. -/
theorem c3_witness :
    (create_request ⟨0, "key", none, 10⟩ "/api/getBalance" [] true wDown).1
      = Except.error (PyError.typeError "unsupported operand types for add") ∧
    (create_request ⟨0, "key", none, 10⟩ "/api/getBalance" [] true wDown).2.1.base_url
      = none :=
  c3_all_mirrors_down_raises_type_error 0 "key" 10 "/api/getBalance" [] wDown
    (by decide) (fun b _ n q => rfl)

/-- C2: the request executor re-raises every network-level failure as the
connectivity error `ValueError('Invalid Base URL')`; a parsed mapping body
with a truthy `error` field raises the provider error carrying that field's
value verbatim; a mapping without a truthy `error` field, and a list body,
are returned unchanged as success payloads. -/
theorem c2_executor_classification (w : World) (b uri : String) (ps : Params) :
    (w.net w.counter (b ++ uri) ps = NetResult.netFail →
      (_send_request w (some b) uri ps).1
        = Except.error (PyError.valueError "Invalid Base URL")) ∧
    (∀ j, w.net w.counter (b ++ uri) ps = NetResult.body j →
      (_send_request w (some b) uri ps).1 = classifyResponse j) ∧
    (∀ fs e, lookupKey fs "error" = some e → pyTruthy e = true →
      classifyResponse (Json.obj fs) = Except.error (PyError.vakSmsBadRequest e)) ∧
    (∀ fs, lookupKey fs "error" = none →
      classifyResponse (Json.obj fs) = Except.ok (Json.obj fs)) ∧
    (∀ fs e, lookupKey fs "error" = some e → pyTruthy e = false →
      classifyResponse (Json.obj fs) = Except.ok (Json.obj fs)) ∧
    (∀ l, classifyResponse (Json.arr l) = Except.ok (Json.arr l)) := by
  refine ⟨?_, ?_, ?_, ?_, ?_, ?_⟩
  · intro h; simp [_send_request, h]
  · intro j h; simp [_send_request, h]
  · intro fs e h1 h2; simp [classifyResponse, h1, h2]
  · intro fs h; simp [classifyResponse, h]
  · intro fs e h1 h2; simp [classifyResponse, h1, h2]
  · intro l; rfl

/-- C2 witness: the classification evaluated at concrete bodies — a
network failure, a truthy error mapping, a plain mapping, a mapping with a
falsy error field, and a list body. -/
theorem c2_witness :
    (_send_request wDown (some "https://vak-sms.com") "/x" []).1
      = Except.error (PyError.valueError "Invalid Base URL") ∧
    classifyResponse (Json.obj [("error", Json.str "bad")])
      = Except.error (PyError.vakSmsBadRequest (Json.str "bad")) ∧
    classifyResponse (Json.obj [("balance", Json.num 5)])
      = Except.ok (Json.obj [("balance", Json.num 5)]) ∧
    classifyResponse (Json.obj [("error", Json.str "")])
      = Except.ok (Json.obj [("error", Json.str "")]) ∧
    classifyResponse (Json.arr [Json.num 1]) = Except.ok (Json.arr [Json.num 1]) := by
  have h := c2_executor_classification wDown "https://vak-sms.com" "/x" []
  exact ⟨h.1 rfl,
    h.2.2.1 [("error", Json.str "bad")] (Json.str "bad") rfl rfl,
    h.2.2.2.1 [("balance", Json.num 5)] rfl,
    h.2.2.2.2.1 [("error", Json.str "")] (Json.str "") rfl rfl,
    h.2.2.2.2.2 [Json.num 1]⟩

theorem get_count_number_cache_behavior (self : Vaksms) (service : String)
    (operator_ : Option String) (country : String) (c : CacheCN) (w : World)
    (hc : lookupKey c (self.oid, service, operator_, country) = none) :
    (∀ e, (get_count_number self service operator_ country c w).1 = Except.error e →
      (get_count_number self service operator_ country c w).2.2.1 = c) ∧
    (∀ v, (get_count_number self service operator_ country c w).1 = Except.ok v →
      (get_count_number self service operator_ country c w).2.2.1
        = ((self.oid, service, operator_, country), v) :: c) := by
  rcases hcr : create_request self "/api/getCountNumber"
      (get_count_number_params service operator_ country) true w with ⟨r, s2, w2, ev⟩
  cases r with
  | error e =>
      have hR : get_count_number self service operator_ country c w
          = (Except.error e, s2, c, w2, ev) := by
        simp [get_count_number, hc, hcr]
      rw [hR]
      exact ⟨fun _ _ => rfl, fun v hv => Except.noConfusion hv⟩
  | ok j =>
      cases hpost : get_count_number_post j with
      | error e =>
          have hR : get_count_number self service operator_ country c w
              = (Except.error e, s2, c, w2, ev) := by
            simp [get_count_number, hc, hcr, hpost]
          rw [hR]
          exact ⟨fun _ _ => rfl, fun v hv => Except.noConfusion hv⟩
      | ok out =>
          have hR : get_count_number self service operator_ country c w
              = (Except.ok out, s2,
                 ((self.oid, service, operator_, country), out) :: c, w2, ev) := by
            simp [get_count_number, hc, hcr, hpost]
          rw [hR]
          refine ⟨fun e2 he => Except.noConfusion he, fun v hv => ?_⟩
          have hv2 : Except.ok (ε := PyError) out = Except.ok v := hv
          injection hv2 with h2
          rw [h2]

theorem get_country_list_cache_behavior (self : Vaksms) (c : CacheCountries) (w : World)
    (hc : lookupKey c self.oid = none) :
    (∀ e, (get_country_list self c w).1 = Except.error e →
      (get_country_list self c w).2.2.1 = c) ∧
    (∀ v, (get_country_list self c w).1 = Except.ok v →
      (get_country_list self c w).2.2.1 = (self.oid, v) :: c) := by
  rcases hcr : create_request self "/api/getCountryList" [] false w with ⟨r, s2, w2, ev⟩
  cases r with
  | error e =>
      have hR : get_country_list self c w = (Except.error e, s2, c, w2, ev) := by
        simp [get_country_list, hc, hcr]
      rw [hR]
      exact ⟨fun _ _ => rfl, fun v hv => Except.noConfusion hv⟩
  | ok j =>
      have hR : get_country_list self c w
          = (Except.ok j, s2, (self.oid, j) :: c, w2, ev) := by
        simp [get_country_list, hc, hcr]
      rw [hR]
      refine ⟨fun e2 he => Except.noConfusion he, fun v hv => ?_⟩
      have hv2 : Except.ok (ε := PyError) j = Except.ok v := hv
      injection hv2 with h2
      rw [h2]

theorem get_count_number_list_cache_behavior (self : Vaksms) (country : String)
    (operator_ : Option String) (rent : Bool) (c : CacheAllData) (w : World)
    (hc : lookupKey c (self.oid, country, operator_, rent) = none) :
    (∀ e, (get_count_number_list self country operator_ rent c w).1 = Except.error e →
      (get_count_number_list self country operator_ rent c w).2.2.1 = c) ∧
    (∀ v, (get_count_number_list self country operator_ rent c w).1 = Except.ok v →
      (get_count_number_list self country operator_ rent c w).2.2.1
        = ((self.oid, country, operator_, rent), v) :: c) := by
  rcases hcr : create_request self "/api/getCountNumbersList"
      (get_count_number_list_params country operator_ rent) false w with ⟨r, s2, w2, ev⟩
  cases r with
  | error e =>
      have hR : get_count_number_list self country operator_ rent c w
          = (Except.error e, s2, c, w2, ev) := by
        simp [get_count_number_list, hc, hcr]
      rw [hR]
      exact ⟨fun _ _ => rfl, fun v hv => Except.noConfusion hv⟩
  | ok j =>
      cases j with
      | obj fs =>
          cases hb2 : build_ret_d s2.base_url fs with
          | error e =>
              have hR : get_count_number_list self country operator_ rent c w
                  = (Except.error e, s2, c, w2, ev) := by
                simp [get_count_number_list, hc, hcr, hb2]
              rw [hR]
              exact ⟨fun _ _ => rfl, fun v hv => Except.noConfusion hv⟩
          | ok out =>
              have hR : get_count_number_list self country operator_ rent c w
                  = (Except.ok (Json.obj out), s2,
                     ((self.oid, country, operator_, rent), Json.obj out) :: c, w2, ev) := by
                simp [get_count_number_list, hc, hcr, hb2]
              rw [hR]
              refine ⟨fun e2 he => Except.noConfusion he, fun v hv => ?_⟩
              have hv2 : Except.ok (ε := PyError) (Json.obj out) = Except.ok v := hv
              injection hv2 with h2
              rw [h2]
      | null =>
          have hR : get_count_number_list self country operator_ rent c w
              = (Except.error (PyError.attributeError "keys"), s2, c, w2, ev) := by
            simp [get_count_number_list, hc, hcr]
          rw [hR]
          exact ⟨fun _ _ => rfl, fun v hv => Except.noConfusion hv⟩
      | bool b2 =>
          have hR : get_count_number_list self country operator_ rent c w
              = (Except.error (PyError.attributeError "keys"), s2, c, w2, ev) := by
            simp [get_count_number_list, hc, hcr]
          rw [hR]
          exact ⟨fun _ _ => rfl, fun v hv => Except.noConfusion hv⟩
      | num n2 =>
          have hR : get_count_number_list self country operator_ rent c w
              = (Except.error (PyError.attributeError "keys"), s2, c, w2, ev) := by
            simp [get_count_number_list, hc, hcr]
          rw [hR]
          exact ⟨fun _ _ => rfl, fun v hv => Except.noConfusion hv⟩
      | str s3 =>
          have hR : get_count_number_list self country operator_ rent c w
              = (Except.error (PyError.attributeError "keys"), s2, c, w2, ev) := by
            simp [get_count_number_list, hc, hcr]
          rw [hR]
          exact ⟨fun _ _ => rfl, fun v hv => Except.noConfusion hv⟩
      | arr l2 =>
          have hR : get_count_number_list self country operator_ rent c w
              = (Except.error (PyError.attributeError "keys"), s2, c, w2, ev) := by
            simp [get_count_number_list, hc, hcr]
          rw [hR]
          exact ⟨fun _ _ => rfl, fun v hv => Except.noConfusion hv⟩

theorem get_count_number_miss_events (self : Vaksms) (service : String)
    (operator_ : Option String) (country : String) (c : CacheCN) (w : World)
    (hc : lookupKey c (self.oid, service, operator_, country) = none) :
    (get_count_number self service operator_ country c w).2.2.2.2
      = (create_request self "/api/getCountNumber"
          (get_count_number_params service operator_ country) true w).2.2.2 := by
  rcases hcr : create_request self "/api/getCountNumber"
      (get_count_number_params service operator_ country) true w with ⟨r, s2, w2, ev⟩
  cases r with
  | error e => simp [get_count_number, hc, hcr]
  | ok j =>
      cases hpost : get_count_number_post j with
      | error e => simp [get_count_number, hc, hcr, hpost]
      | ok out => simp [get_count_number, hc, hcr, hpost]

theorem get_country_list_miss_events (self : Vaksms) (c : CacheCountries) (w : World)
    (hc : lookupKey c self.oid = none) :
    (get_country_list self c w).2.2.2.2
      = (create_request self "/api/getCountryList" [] false w).2.2.2 := by
  rcases hcr : create_request self "/api/getCountryList" [] false w with ⟨r, s2, w2, ev⟩
  cases r with
  | error e => simp [get_country_list, hc, hcr]
  | ok j => simp [get_country_list, hc, hcr]

theorem get_count_number_list_miss_events (self : Vaksms) (country : String)
    (operator_ : Option String) (rent : Bool) (c : CacheAllData) (w : World)
    (hc : lookupKey c (self.oid, country, operator_, rent) = none) :
    (get_count_number_list self country operator_ rent c w).2.2.2.2
      = (create_request self "/api/getCountNumbersList"
          (get_count_number_list_params country operator_ rent) false w).2.2.2 := by
  rcases hcr : create_request self "/api/getCountNumbersList"
      (get_count_number_list_params country operator_ rent) false w with ⟨r, s2, w2, ev⟩
  cases r with
  | error e => simp [get_count_number_list, hc, hcr]
  | ok j =>
      cases j with
      | obj fs =>
          cases hb2 : build_ret_d s2.base_url fs with
          | error e => simp [get_count_number_list, hc, hcr, hb2]
          | ok out => simp [get_count_number_list, hc, hcr, hb2]
      | null => simp [get_count_number_list, hc, hcr]
      | bool b2 => simp [get_count_number_list, hc, hcr]
      | num n2 => simp [get_count_number_list, hc, hcr]
      | str s3 => simp [get_count_number_list, hc, hcr]
      | arr l2 => simp [get_count_number_list, hc, hcr]

/-- C4: for each cached operation (`get_count_number`, `get_country_list`,
`get_count_number_list`), on a cache miss an erroring call leaves the
cache unchanged and the next identical call reaches the network again
(its event trace is non-empty), while a normally returning call is the
only way a cache entry is added. -/
theorem c4_errors_never_cached (self : Vaksms) (bb : String)
    (hkey : self.api_key ≠ "") (hb : self.base_url = some bb) :
    (∀ service operator_ country c (w w2 : World),
      lookupKey c (self.oid, service, operator_, country) = none →
      (∀ e, (get_count_number self service operator_ country c w).1 = Except.error e →
        (get_count_number self service operator_ country c w).2.2.1 = c ∧
        (get_count_number self service operator_ country
            (get_count_number self service operator_ country c w).2.2.1 w2).2.2.2.2 ≠ []) ∧
      (∀ v, (get_count_number self service operator_ country c w).1 = Except.ok v →
        (get_count_number self service operator_ country c w).2.2.1
          = ((self.oid, service, operator_, country), v) :: c)) ∧
    (∀ c (w w2 : World), lookupKey c self.oid = none →
      (∀ e, (get_country_list self c w).1 = Except.error e →
        (get_country_list self c w).2.2.1 = c ∧
        (get_country_list self (get_country_list self c w).2.2.1 w2).2.2.2.2 ≠ []) ∧
      (∀ v, (get_country_list self c w).1 = Except.ok v →
        (get_country_list self c w).2.2.1 = (self.oid, v) :: c)) ∧
    (∀ country operator_ rent c (w w2 : World),
      lookupKey c (self.oid, country, operator_, rent) = none →
      (∀ e, (get_count_number_list self country operator_ rent c w).1 = Except.error e →
        (get_count_number_list self country operator_ rent c w).2.2.1 = c ∧
        (get_count_number_list self country operator_ rent
            (get_count_number_list self country operator_ rent c w).2.2.1 w2).2.2.2.2 ≠ []) ∧
      (∀ v, (get_count_number_list self country operator_ rent c w).1 = Except.ok v →
        (get_count_number_list self country operator_ rent c w).2.2.1
          = ((self.oid, country, operator_, rent), v) :: c)) := by
  refine ⟨?_, ?_, ?_⟩
  · intro service operator_ country c w w2 hc
    obtain ⟨herr, hok⟩ := get_count_number_cache_behavior self service operator_ country c w hc
    refine ⟨fun e he => ⟨herr e he, ?_⟩, hok⟩
    rw [herr e he]
    rw [get_count_number_miss_events self service operator_ country c w2 hc]
    rw [create_request_pinned self bb "/api/getCountNumber"
      (get_count_number_params service operator_ country) true w2 hb (by simp [hkey])]
    simp
  · intro c w w2 hc
    obtain ⟨herr, hok⟩ := get_country_list_cache_behavior self c w hc
    refine ⟨fun e he => ⟨herr e he, ?_⟩, hok⟩
    rw [herr e he]
    rw [get_country_list_miss_events self c w2 hc]
    rw [create_request_pinned self bb "/api/getCountryList" [] false w2 hb (by simp)]
    simp
  · intro country operator_ rent c w w2 hc
    obtain ⟨herr, hok⟩ := get_count_number_list_cache_behavior self country operator_ rent c w hc
    refine ⟨fun e he => ⟨herr e he, ?_⟩, hok⟩
    rw [herr e he]
    rw [get_count_number_list_miss_events self country operator_ rent c w2 hc]
    rw [create_request_pinned self bb "/api/getCountNumbersList"
      (get_count_number_list_params country operator_ rent) false w2 hb (by simp)]
    simp

/-- C4 witness: a provider-error call to `get_count_number` caches
nothing and the retry hits the network; a successful call stores exactly
its result. -/
theorem c4_witness :
    (get_count_number ⟨1, "k", some "B", 10⟩ "tg" none "ru" [] wProviderError).1
      = Except.error (PyError.vakSmsBadRequest (Json.str "x")) ∧
    (get_count_number ⟨1, "k", some "B", 10⟩ "tg" none "ru" [] wProviderError).2.2.1 = [] ∧
    (get_count_number ⟨1, "k", some "B", 10⟩ "tg" none "ru"
        (get_count_number ⟨1, "k", some "B", 10⟩ "tg" none "ru" [] wProviderError).2.2.1
        wProviderError).2.2.2.2 ≠ [] ∧
    (get_count_number ⟨1, "k", some "B", 10⟩ "tg" none "ru" [] wCountNumbers).2.2.1
      = [((1, "tg", none, "ru"),
          Json.obj [("tg", Json.num 5), ("service", Json.str "tg"), ("count", Json.num 5)])] := by
  have h := c4_errors_never_cached ⟨1, "k", some "B", 10⟩ "B" (by decide) rfl
  have h1 := (h.1 "tg" none "ru" [] wProviderError wProviderError rfl).1
    (PyError.vakSmsBadRequest (Json.str "x")) rfl
  have h2 := (h.1 "tg" none "ru" [] wCountNumbers wCountNumbers rfl).2
    (Json.obj [("tg", Json.num 5), ("service", Json.str "tg"), ("count", Json.num 5)]) rfl
  exact ⟨rfl, h1.1, h1.2, h2⟩

theorem get_count_number_cache_shape (self : Vaksms) (service : String)
    (operator_ : Option String) (country : String) (c : CacheCN) (w : World) :
    (get_count_number self service operator_ country c w).2.2.1 = c ∨
    ∃ v, (get_count_number self service operator_ country c w).2.2.1
      = ((self.oid, service, operator_, country), v) :: c := by
  cases hc : lookupKey c (self.oid, service, operator_, country) with
  | some v => left; simp [get_count_number, hc]
  | none =>
      obtain ⟨herr, hok⟩ := get_count_number_cache_behavior self service operator_ country c w hc
      cases hr : (get_count_number self service operator_ country c w).1 with
      | error e => left; exact herr e hr
      | ok v => right; exact ⟨v, hok v hr⟩

/-- C5 counterexample: two sessions with distinct API keys (`"k1"` object
1 and `"k2"` object 2), same operation and arguments, within the TTL
window; after the first session's call populated the cache, the second
session's call still issues an HTTP request — refuting "the second call
returns the first call's stored result without a network call". -/
theorem c5_counterexample :
    (get_count_number ⟨2, "k2", some "B", 10⟩ "tg" none "ru"
        (get_count_number ⟨1, "k1", some "B", 10⟩ "tg" none "ru" [] wCountNumbers).2.2.1
        wCountNumbers).2.2.2.2
      = [Event.httpGet ("B" ++ "/api/getCountNumber")
          [("service", Value.vStr "tg"), ("country", Value.vStr "ru"),
           ("price", Value.vInt 1), ("apiKey", Value.vStr "k2")]] ∧
    (get_count_number ⟨2, "k2", some "B", 10⟩ "tg" none "ru"
        (get_count_number ⟨1, "k1", some "B", 10⟩ "tg" none "ru" [] wCountNumbers).2.2.1
        wCountNumbers).2.2.2.2 ≠ [] := by
  refine ⟨rfl, ?_⟩
  intro h
  rw [show (get_count_number ⟨2, "k2", some "B", 10⟩ "tg" none "ru"
        (get_count_number ⟨1, "k1", some "B", 10⟩ "tg" none "ru" [] wCountNumbers).2.2.1
        wCountNumbers).2.2.2.2
      = [Event.httpGet ("B" ++ "/api/getCountNumber")
          [("service", Value.vStr "tg"), ("country", Value.vStr "ru"),
           ("price", Value.vInt 1), ("apiKey", Value.vStr "k2")]] from rfl] at h
  exact List.noConfusion h

/-- C5 (amended): the cache store is a process-wide singleton shared by
all sessions, but each entry's key contains the calling client instance
(`cachetools`' default key hashes all positional arguments, `self`
included), so two distinct sessions — in particular two sessions with
distinct API keys — never share an entry: after the first session's call,
the second session's call with identical arguments still performs its own
network request. -/
theorem c5_cache_keyed_by_session_instance
    (s1 s2 : Vaksms) (bb : String) (service : String) (operator_ : Option String)
    (country : String) (c : CacheCN) (w1 w2 : World)
    (hoid : s1.oid ≠ s2.oid)
    (hkey2 : s2.api_key ≠ "") (hb2 : s2.base_url = some bb)
    (hc2 : lookupKey c (s2.oid, service, operator_, country) = none) :
    (get_count_number s2 service operator_ country
        (get_count_number s1 service operator_ country c w1).2.2.1 w2).2.2.2.2
      = [Event.httpGet (bb ++ "/api/getCountNumber")
          (sentParams s2.api_key (get_count_number_params service operator_ country))] := by
  have hc2' : lookupKey (get_count_number s1 service operator_ country c w1).2.2.1
      (s2.oid, service, operator_, country) = none := by
    rcases get_count_number_cache_shape s1 service operator_ country c w1 with h | ⟨v, h⟩
    · rw [h]; exact hc2
    · rw [h]
      have hne : ((s2.oid, service, operator_, country) : CNKey)
          ≠ (s1.oid, service, operator_, country) := by
        intro he
        injection he with h1 h2
        exact hoid h1.symm
      simp [lookupKey, hne, hc2]
  rw [get_count_number_miss_events s2 service operator_ country _ w2 hc2']
  rw [create_request_pinned s2 bb "/api/getCountNumber"
    (get_count_number_params service operator_ country) true w2 hb2 (by simp [hkey2])]

/-- C5 witness: the amended theorem at the two concrete sessions of the
counterexample. -/
theorem c5_witness :
    (get_count_number ⟨2, "k2", some "B", 10⟩ "tg" none "ru"
        (get_count_number ⟨1, "k1", some "B", 10⟩ "tg" none "ru" [] wCountNumbers).2.2.1
        wCountNumbers).2.2.2.2
      = [Event.httpGet ("B" ++ "/api/getCountNumber")
          (sentParams "k2" (get_count_number_params "tg" none "ru"))] :=
  c5_cache_keyed_by_session_instance ⟨1, "k1", some "B", 10⟩ ⟨2, "k2", some "B", 10⟩ "B"
    "tg" none "ru" [] wCountNumbers wCountNumbers (by decide) (by decide) rfl rfl

theorem get_number_events (self : Vaksms) (service : ServiceArg) (operator_ : Option String)
    (rent : Bool) (country soft_id : String) (w : World) (sv : String)
    (hsv : combineService service = Except.ok sv) :
    (get_number self service operator_ rent country soft_id w).2.2.2
      = (create_request self "/api/getNumber/"
          (get_number_params sv operator_ rent country soft_id) true w).2.2.2 := by
  rcases hcr : create_request self "/api/getNumber/"
      (get_number_params sv operator_ rent country soft_id) true w with ⟨r, s2, w2, ev⟩
  cases r with
  | error e => simp [get_number, hsv, hcr]
  | ok j => cases j <;> simp [get_number, hsv, hcr]

/-- C9: `get_number(["viber", "whatsapp"])` normalizes the service list to
the single combined value `"viber,whatsapp"`, the sent query parameters
carry it, and the request goes out with exactly those parameters. -/
theorem c9_service_list_combined (oid : Nat) (key bb : String) (t : Int)
    (operator_ : Option String) (rent : Bool) (country soft_id : String) (w : World)
    (hkey : key ≠ "") :
    combineService (ServiceArg.many ["viber", "whatsapp"]) = Except.ok "viber,whatsapp" ∧
    ("service", Value.vStr "viber,whatsapp")
      ∈ sentParams key (get_number_params "viber,whatsapp" operator_ rent country soft_id) ∧
    (get_number ⟨oid, key, some bb, t⟩ (ServiceArg.many ["viber", "whatsapp"]) operator_
        rent country soft_id w).2.2.2
      = [Event.httpGet (bb ++ "/api/getNumber/")
          (sentParams key (get_number_params "viber,whatsapp" operator_ rent country soft_id))] := by
  refine ⟨rfl, ?_, ?_⟩
  · simp [sentParams, filterNone, get_number_params, hkey]
  · rw [get_number_events ⟨oid, key, some bb, t⟩ (ServiceArg.many ["viber", "whatsapp"])
      operator_ rent country soft_id w "viber,whatsapp" rfl]
    rw [create_request_pinned ⟨oid, key, some bb, t⟩ bb "/api/getNumber/"
      (get_number_params "viber,whatsapp" operator_ rent country soft_id) true w rfl
      (by simp [hkey])]

/-- C9 witness: the theorem at a concrete session and world. -/
theorem c9_witness :
    combineService (ServiceArg.many ["viber", "whatsapp"]) = Except.ok "viber,whatsapp" ∧
    ("service", Value.vStr "viber,whatsapp")
      ∈ sentParams "key" (get_number_params "viber,whatsapp" none false "ru" "1019") ∧
    (get_number ⟨0, "key", some "B", 10⟩ (ServiceArg.many ["viber", "whatsapp"]) none
        false "ru" "1019" wCountNumbers).2.2.2
      = [Event.httpGet ("B" ++ "/api/getNumber/")
          (sentParams "key" (get_number_params "viber,whatsapp" none false "ru" "1019"))] :=
  c9_service_list_combined 0 "key" "B" 10 none false "ru" "1019" wCountNumbers (by decide)

theorem rent_param_is_tuple (country : String) (operator_ : Option String) (rent : Bool)
    (key : String) :
    lookupKey (sentParams key (get_count_number_list_params country operator_ rent)) "rent"
      = some (Value.vTuple [Value.vStr (if rent then "True" else "False")]) := by
  rcases operator_ with _ | opv
  · by_cases hkey : key = "" <;>
      simp [sentParams, filterNone, get_count_number_list_params, lookupKey, hkey]
  · by_cases hop : opv = "" <;> by_cases hkey : key = "" <;>
      simp [sentParams, filterNone, get_count_number_list_params, lookupKey, hkey, hop]

theorem rent_param_of_get_number (service : String) (operator_ : Option String)
    (rent : Bool) (country soft_id key : String) :
    lookupKey (sentParams key (get_number_params service operator_ rent country soft_id)) "rent"
      = some (Value.vStr (if rent then "true" else "false")) := by
  rcases operator_ with _ | opv
  · by_cases hkey : key = "" <;>
      simp [sentParams, filterNone, get_number_params, lookupKey, hkey]
  · by_cases hkey : key = "" <;>
      simp [sentParams, filterNone, get_number_params, lookupKey, hkey]

/-- C10: the `rent` query parameter of `get_count_number_list` is the
one-element tuple `('True',)` / `('False',)` (the trailing comma in
`params['rent'] = 'True' if rent else 'False',`), never a plain string,
and the sent request carries exactly these parameters; by contrast the
boolean-bearing `get_number` sends `rent` as the plain string
`'true'`/`'false'`. -/
theorem c10_rent_is_tuple (oid : Nat) (key bb country : String) (t : Int)
    (operator_ : Option String) (rent : Bool) (c : CacheAllData) (w : World)
    (hc : lookupKey c (oid, country, operator_, rent) = none) :
    lookupKey (sentParams key (get_count_number_list_params country operator_ rent)) "rent"
      = some (Value.vTuple [Value.vStr (if rent then "True" else "False")]) ∧
    (∀ s, lookupKey (sentParams key (get_count_number_list_params country operator_ rent))
        "rent" ≠ some (Value.vStr s)) ∧
    (get_count_number_list ⟨oid, key, some bb, t⟩ country operator_ rent c w).2.2.2.2
      = [Event.httpGet (bb ++ "/api/getCountNumbersList")
          (sentParams key (get_count_number_list_params country operator_ rent))] ∧
    (∀ service soft_id,
      lookupKey (sentParams key (get_number_params service operator_ rent country soft_id))
        "rent" = some (Value.vStr (if rent then "true" else "false"))) := by
  refine ⟨rent_param_is_tuple country operator_ rent key, ?_, ?_, ?_⟩
  · intro s h
    rw [rent_param_is_tuple country operator_ rent key] at h
    injection h with h2
    exact Value.noConfusion h2
  · rw [get_count_number_list_miss_events ⟨oid, key, some bb, t⟩ country operator_ rent c w hc]
    rw [create_request_pinned ⟨oid, key, some bb, t⟩ bb "/api/getCountNumbersList"
      (get_count_number_list_params country operator_ rent) false w rfl (by simp)]
  · intro service soft_id
    exact rent_param_of_get_number service operator_ rent country soft_id key

/-- C10 witness: the theorem at concrete arguments, for both boolean
values of `rent`. -/
theorem c10_witness :
    lookupKey (sentParams "key" (get_count_number_list_params "RU" none true)) "rent"
      = some (Value.vTuple [Value.vStr (if true then "True" else "False")]) ∧
    lookupKey (sentParams "key" (get_count_number_list_params "RU" none false)) "rent"
      = some (Value.vTuple [Value.vStr (if false then "True" else "False")]) ∧
    (get_count_number_list ⟨0, "key", some "B", 10⟩ "RU" none false [] wCountNumbers).2.2.2.2
      = [Event.httpGet ("B" ++ "/api/getCountNumbersList")
          (sentParams "key" (get_count_number_list_params "RU" none false))] ∧
    lookupKey (sentParams "key" (get_number_params "tg" none false "RU" "1019")) "rent"
      = some (Value.vStr (if false then "true" else "false")) := by
  have ht := c10_rent_is_tuple 0 "key" "B" "RU" 10 none true [] wCountNumbers rfl
  have hf := c10_rent_is_tuple 0 "key" "B" "RU" 10 none false [] wCountNumbers rfl
  exact ⟨ht.1, hf.1, hf.2.2.1, hf.2.2.2 "tg" "1019"⟩

theorem append_left_ne (bb x y : String) (h : x ≠ y) : bb ++ x ≠ bb ++ y := by
  intro he
  apply h
  have hd : (bb ++ x).data = (bb ++ y).data := congrArg String.data he
  rw [String.data_append, String.data_append] at hd
  rcases x with ⟨xd⟩
  rcases y with ⟨yd⟩
  have : xd = yd := List.append_cancel_left hd
  rw [this]

theorem isPoll_not_poll (bb uri : String) (ps : Params) (h : uri ≠ "/api/getSmsCode/") :
    isPoll bb (Event.httpGet (bb ++ uri) ps) = false := by
  simp only [isPoll]
  exact beq_eq_false_iff_ne.mpr (append_left_ne bb uri "/api/getSmsCode/" h)

theorem isPoll_poll (bb : String) (ps : Params) :
    isPoll bb (Event.httpGet (bb ++ "/api/getSmsCode/") ps) = true := by
  simp [isPoll]

theorem create_request_ok_pinned (oid : Nat) (key bb uri : String) (t : Int) (ps : Params)
    (net : Nat → String → Params → NetResult) (c0 : Nat) (cl : Int) (j : Json)
    (hkey : key ≠ "")
    (h0 : ∀ q, net c0 (bb ++ uri) q = NetResult.body j)
    (hj : classifyResponse j = Except.ok j) :
    create_request ⟨oid, key, some bb, t⟩ uri ps true ⟨net, c0, cl⟩
      = (Except.ok j, ⟨oid, key, some bb, t⟩, ⟨net, c0 + 1, cl⟩,
         [Event.httpGet (bb ++ uri) (sentParams key ps)]) := by
  rw [create_request_pinned ⟨oid, key, some bb, t⟩ bb uri ps true ⟨net, c0, cl⟩ rfl
    (by simp [hkey])]
  simp [_send_request, h0, hj]

theorem set_status_ok (oid : Nat) (key bb id st2 : String) (t : Int)
    (net : Nat → String → Params → NetResult) (c0 : Nat) (cl : Int) (jS stv : Json)
    (hkey : key ≠ "")
    (hS : ∀ q, net c0 (bb ++ "/api/setStatus") q = NetResult.body jS)
    (hjS : classifyResponse jS = Except.ok jS)
    (hst : getItem jS "status" = Except.ok stv) :
    set_status ⟨oid, key, some bb, t⟩ id st2 ⟨net, c0, cl⟩
      = (Except.ok stv, ⟨oid, key, some bb, t⟩, ⟨net, c0 + 1, cl⟩,
         [Event.httpGet (bb ++ "/api/setStatus")
            (sentParams key [("idNum", Value.vStr id), ("status", Value.vStr st2)])]) := by
  rw [set_status,
    create_request_ok_pinned oid key bb "/api/setStatus" t
      [("idNum", Value.vStr id), ("status", Value.vStr st2)] net c0 cl jS hkey hS hjS]
  simp [hst]

theorem wait_loop_timeout_elapsed (ps : Params) (timeout per st : Int) (fuel : Nat)
    (self : Vaksms) (w : World) (hf : 0 < fuel) (h : ¬(w.clock - st < timeout)) :
    wait_loop ps timeout per st fuel self w = (Except.ok none, self, w, []) := by
  cases fuel with
  | zero => exact absurd hf (by simp)
  | succ f => simp [wait_loop, h]

theorem wait_loop_poll_list (ps : Params) (timeout per st : Int) (fuel : Nat)
    (self s2 : Vaksms) (w w2 : World) (response : Json) (l : List Json) (x : Json)
    (ev : List Event)
    (hcl : w.clock - st < timeout)
    (hcr : create_request self "/api/getSmsCode/" ps true { w with clock := w.clock + per }
        = (Except.ok response, s2, w2, ev))
    (hcode : getItem response "smsCode" = Except.ok (Json.arr l))
    (hlast : l.getLast? = some x) :
    wait_loop ps timeout per st (fuel + 1) self w
      = (Except.ok (some x), s2, w2, Event.sleep per :: ev) := by
  simp [wait_loop, hcl, hcr, hcode, hlast]

theorem wait_loop_poll_nolist (ps : Params) (timeout per st : Int) (fuel : Nat)
    (self s2 : Vaksms) (w w2 : World) (response code : Json) (ev : List Event)
    (hcl : w.clock - st < timeout)
    (hcr : create_request self "/api/getSmsCode/" ps true { w with clock := w.clock + per }
        = (Except.ok response, s2, w2, ev))
    (hcode : getItem response "smsCode" = Except.ok code)
    (hnl : ∀ l, code ≠ Json.arr l) :
    wait_loop ps timeout per st (fuel + 1) self w
      = ((wait_loop ps timeout per st fuel s2 w2).1,
         (wait_loop ps timeout per st fuel s2 w2).2.1,
         (wait_loop ps timeout per st fuel s2 w2).2.2.1,
         Event.sleep per :: (ev ++ (wait_loop ps timeout per st fuel s2 w2).2.2.2)) := by
  rcases hT : wait_loop ps timeout per st fuel s2 w2 with ⟨r, s3, w3, ev2⟩
  cases code with
  | arr l => exact absurd rfl (hnl l)
  | null => simp [wait_loop, hcl, hcr, hcode, hT]
  | bool b2 => simp [wait_loop, hcl, hcr, hcode, hT]
  | num n2 => simp [wait_loop, hcl, hcr, hcode, hT]
  | str s4 => simp [wait_loop, hcl, hcr, hcode, hT]
  | obj fs => simp [wait_loop, hcl, hcr, hcode, hT]

theorem wait_sms_code_ok_start (oid : Nat) (key bb id : String) (t : Int)
    (net : Nat → String → Params → NetResult) (c0 : Nat) (cl : Int)
    (jS stv : Json) (timeout per : Int)
    (hkey : key ≠ "")
    (hS : ∀ q, net c0 (bb ++ "/api/setStatus") q = NetResult.body jS)
    (hjS : classifyResponse jS = Except.ok jS)
    (hst : getItem jS "status" = Except.ok stv) :
    wait_sms_code ⟨oid, key, some bb, t⟩ id timeout per ⟨net, c0, cl⟩
      = ((wait_loop [("idNum", Value.vStr id), ("all", Value.vStr "None")] timeout per cl
            (timeout.natAbs + 1) ⟨oid, key, some bb, t⟩ ⟨net, c0 + 1, cl⟩).1,
         (wait_loop [("idNum", Value.vStr id), ("all", Value.vStr "None")] timeout per cl
            (timeout.natAbs + 1) ⟨oid, key, some bb, t⟩ ⟨net, c0 + 1, cl⟩).2.1,
         (wait_loop [("idNum", Value.vStr id), ("all", Value.vStr "None")] timeout per cl
            (timeout.natAbs + 1) ⟨oid, key, some bb, t⟩ ⟨net, c0 + 1, cl⟩).2.2.1,
         Event.httpGet (bb ++ "/api/setStatus")
             (sentParams key [("idNum", Value.vStr id), ("status", Value.vStr "send")])
           :: (wait_loop [("idNum", Value.vStr id), ("all", Value.vStr "None")] timeout per cl
                (timeout.natAbs + 1) ⟨oid, key, some bb, t⟩ ⟨net, c0 + 1, cl⟩).2.2.2) := by
  have hss := set_status_ok oid key bb id "send" t net c0 cl jS stv hkey hS hjS hst
  rcases hT : wait_loop [("idNum", Value.vStr id), ("all", Value.vStr "None")] timeout per cl
      (timeout.natAbs + 1) ⟨oid, key, some bb, t⟩ ⟨net, c0 + 1, cl⟩ with ⟨r, s3, w3, ev2⟩
  simp [wait_sms_code, hkey, hss, hT]

/-- C6: with `timeout = 5` and `per_attempt = 5` against a provider that
never returns a code (the poll body's code field is never a list),
`wait_sms_code` returns the absence signal `None` and issues at most one
poll request to the code endpoint, not counting the initial status
transition. -/
theorem c6_single_poll_on_equal_timeout
    (oid : Nat) (key bb id : String) (t : Int)
    (net : Nat → String → Params → NetResult) (c0 : Nat) (cl : Int)
    (jS stv jP code : Json)
    (hkey : key ≠ "")
    (hS : ∀ q, net c0 (bb ++ "/api/setStatus") q = NetResult.body jS)
    (hjS : classifyResponse jS = Except.ok jS)
    (hst : getItem jS "status" = Except.ok stv)
    (hP : ∀ q, net (c0 + 1) (bb ++ "/api/getSmsCode/") q = NetResult.body jP)
    (hjP : classifyResponse jP = Except.ok jP)
    (hcode : getItem jP "smsCode" = Except.ok code)
    (hnl : ∀ l, code ≠ Json.arr l) :
    (wait_sms_code ⟨oid, key, some bb, t⟩ id 5 5 ⟨net, c0, cl⟩).1 = Except.ok none ∧
    ((wait_sms_code ⟨oid, key, some bb, t⟩ id 5 5 ⟨net, c0, cl⟩).2.2.2.countP
        (fun e => isPoll bb e)) ≤ 1 := by
  have hstart := wait_sms_code_ok_start oid key bb id t net c0 cl jS stv 5 5 hkey hS hjS hst
  have hcr2 := create_request_ok_pinned oid key bb "/api/getSmsCode/" t
    [("idNum", Value.vStr id), ("all", Value.vStr "None")] net (c0 + 1) (cl + 5) jP hkey hP hjP
  have hstep := wait_loop_poll_nolist
    [("idNum", Value.vStr id), ("all", Value.vStr "None")] 5 5 cl 5
    ⟨oid, key, some bb, t⟩ ⟨oid, key, some bb, t⟩ ⟨net, c0 + 1, cl⟩ ⟨net, c0 + 1 + 1, cl + 5⟩
    jP code
    [Event.httpGet (bb ++ "/api/getSmsCode/")
       (sentParams key [("idNum", Value.vStr id), ("all", Value.vStr "None")])]
    (by show cl - cl < (5 : Int); omega) hcr2 hcode hnl
  have hstop := wait_loop_timeout_elapsed
    [("idNum", Value.vStr id), ("all", Value.vStr "None")] 5 5 cl 5
    ⟨oid, key, some bb, t⟩ ⟨net, c0 + 1 + 1, cl + 5⟩ (by decide)
    (by show ¬(cl + 5 - cl < (5 : Int)); omega)
  rw [hstart]
  rw [show ((5 : Int).natAbs + 1) = 5 + 1 from rfl]
  rw [hstep, hstop]
  constructor
  · rfl
  · simp [List.countP_cons, isPoll]
    exact append_left_ne bb _ _ (by decide)

/-- C6 witness: the theorem in the concrete never-a-code world. -/
theorem c6_witness :
    (wait_sms_code ⟨0, "key", some "B", 10⟩ "79991112233" 5 5 wNeverCode).1
      = Except.ok none ∧
    ((wait_sms_code ⟨0, "key", some "B", 10⟩ "79991112233" 5 5 wNeverCode).2.2.2.countP
        (fun e => isPoll "B" e)) ≤ 1 :=
  c6_single_poll_on_equal_timeout 0 "key" "B" "79991112233" 10 wNeverCode.net 0 100
    (Json.obj [("status", Json.str "ok")]) (Json.str "ok")
    (Json.obj [("smsCode", Json.null)]) Json.null
    (by decide) (fun q => rfl) rfl rfl (fun q => rfl) rfl rfl
    (fun l h => Json.noConfusion h)

theorem wait_loop_finds (oid : Nat) (key bb : String) (t : Int) (ps : Params)
    (net : Nat → String → Params → NetResult) (timeout per st : Int)
    (hkey : key ≠ "") :
    ∀ (k : Nat) (jP cd : Nat → Json) (l : List Json) (x : Json) (c0 : Nat) (cl : Int)
      (fuel : Nat),
    k < fuel →
    (∀ i, i ≤ k → cl + (i : Int) * per - st < timeout) →
    (∀ i, i ≤ k → ∀ q, net (c0 + i) (bb ++ "/api/getSmsCode/") q = NetResult.body (jP i)) →
    (∀ i, i ≤ k → classifyResponse (jP i) = Except.ok (jP i)) →
    (∀ i, i ≤ k → getItem (jP i) "smsCode" = Except.ok (cd i)) →
    (∀ i, i < k → ∀ l2, cd i ≠ Json.arr l2) →
    cd k = Json.arr l →
    l.getLast? = some x →
    (wait_loop ps timeout per st fuel ⟨oid, key, some bb, t⟩ ⟨net, c0, cl⟩).1
        = Except.ok (some x) ∧
    ((wait_loop ps timeout per st fuel ⟨oid, key, some bb, t⟩ ⟨net, c0, cl⟩).2.2.2.countP
        (fun e => isPoll bb e)) = k + 1 := by
  intro k
  induction k with
  | zero =>
      intro jP cd l x c0 cl fuel hfuel hgap hP hjP hcd hnl hlist hlast
      cases fuel with
      | zero => exact absurd hfuel (by omega)
      | succ f =>
          have h0 : ∀ q, net c0 (bb ++ "/api/getSmsCode/") q = NetResult.body (jP 0) := by
            intro q
            simpa using hP 0 (le_refl 0) q
          have hcr := create_request_ok_pinned oid key bb "/api/getSmsCode/" t ps net c0 (cl + per)
            (jP 0) hkey h0 (hjP 0 (le_refl 0))
          have hcode0 := hcd 0 (le_refl 0)
          rw [hlist] at hcode0
          have hstep := wait_loop_poll_list ps timeout per st f ⟨oid, key, some bb, t⟩
            ⟨oid, key, some bb, t⟩ ⟨net, c0, cl⟩ ⟨net, c0 + 1, cl + per⟩ (jP 0) l x
            [Event.httpGet (bb ++ "/api/getSmsCode/") (sentParams key ps)]
            (by show cl - st < timeout; simpa using hgap 0 (le_refl 0))
            hcr hcode0 hlast
          rw [hstep]
          exact ⟨rfl, by simp [List.countP_cons, isPoll]⟩
  | succ k ih =>
      intro jP cd l x c0 cl fuel hfuel hgap hP hjP hcd hnl hlist hlast
      cases fuel with
      | zero => exact absurd hfuel (by omega)
      | succ f =>
          have h0 : ∀ q, net c0 (bb ++ "/api/getSmsCode/") q = NetResult.body (jP 0) := by
            intro q
            simpa using hP 0 (by omega) q
          have hcr := create_request_ok_pinned oid key bb "/api/getSmsCode/" t ps net c0 (cl + per)
            (jP 0) hkey h0 (hjP 0 (by omega))
          have hstep := wait_loop_poll_nolist ps timeout per st f ⟨oid, key, some bb, t⟩
            ⟨oid, key, some bb, t⟩ ⟨net, c0, cl⟩ ⟨net, c0 + 1, cl + per⟩ (jP 0) (cd 0)
            [Event.httpGet (bb ++ "/api/getSmsCode/") (sentParams key ps)]
            (by show cl - st < timeout; simpa using hgap 0 (by omega))
            hcr (hcd 0 (by omega)) (hnl 0 (by omega))
          have hrec := ih (fun i => jP (i + 1)) (fun i => cd (i + 1)) l x (c0 + 1) (cl + per) f
            (by omega)
            (by intro i hi
                have hg := hgap (i + 1) (by omega)
                push_cast at hg
                rw [add_one_mul] at hg
                linarith)
            (by intro i hi q
                have hq := hP (i + 1) (by omega) q
                have hc : c0 + 1 + i = c0 + (i + 1) := by omega
                rw [hc]
                exact hq)
            (by intro i hi; exact hjP (i + 1) (by omega))
            (by intro i hi; exact hcd (i + 1) (by omega))
            (by intro i hi l2; exact hnl (i + 1) (by omega) l2)
            hlist hlast
          rw [hstep]
          refine ⟨hrec.1, ?_⟩
          have hsleep : isPoll bb (Event.sleep per) = false := rfl
          have hpoll : isPoll bb (Event.httpGet (bb ++ "/api/getSmsCode/")
              (sentParams key ps)) = true := isPoll_poll bb _
          simp [List.countP_cons, List.countP_append, hsleep, hpoll, hrec.2]

/-- C7: whenever a poll response presents the code field as a non-empty
ordered sequence (a list) — the polls before it having returned non-list
codes — `wait_sms_code` returns the last element of that sequence and
stops polling: the number of poll requests issued is exactly the index of
that poll plus one. -/
theorem c7_list_code_returns_last_and_stops
    (oid : Nat) (key bb id : String) (t : Int)
    (net : Nat → String → Params → NetResult) (c0 : Nat) (cl : Int)
    (timeout per : Int) (jS stv : Json) (jP cd : Nat → Json) (k : Nat)
    (l : List Json) (x : Json)
    (hkey : key ≠ "")
    (hper : 1 ≤ per)
    (htime : (k : Int) * per < timeout)
    (hS : ∀ q, net c0 (bb ++ "/api/setStatus") q = NetResult.body jS)
    (hjS : classifyResponse jS = Except.ok jS)
    (hst : getItem jS "status" = Except.ok stv)
    (hP : ∀ i, i ≤ k → ∀ q,
      net (c0 + 1 + i) (bb ++ "/api/getSmsCode/") q = NetResult.body (jP i))
    (hjP : ∀ i, i ≤ k → classifyResponse (jP i) = Except.ok (jP i))
    (hcd : ∀ i, i ≤ k → getItem (jP i) "smsCode" = Except.ok (cd i))
    (hnl : ∀ i, i < k → ∀ l2, cd i ≠ Json.arr l2)
    (hlist : cd k = Json.arr l)
    (hlast : l.getLast? = some x) :
    (wait_sms_code ⟨oid, key, some bb, t⟩ id timeout per ⟨net, c0, cl⟩).1
      = Except.ok (some x) ∧
    ((wait_sms_code ⟨oid, key, some bb, t⟩ id timeout per ⟨net, c0, cl⟩).2.2.2.countP
        (fun e => isPoll bb e)) = k + 1 := by
  have hstart := wait_sms_code_ok_start oid key bb id t net c0 cl jS stv timeout per
    hkey hS hjS hst
  have hkfuel : k < timeout.natAbs + 1 := by
    have h1 : (k : Int) ≤ (k : Int) * per :=
      le_mul_of_one_le_right (Int.ofNat_nonneg k) hper
    have h2 : (k : Int) < timeout := lt_of_le_of_lt h1 htime
    have h3 : (0 : Int) ≤ timeout := by
      have hmn : (0 : Int) ≤ (k : Int) * per :=
        mul_nonneg (Int.ofNat_nonneg k) (by linarith)
      linarith
    have h4 : ((timeout.natAbs : Int)) = timeout := Int.natAbs_of_nonneg h3
    omega
  have hloop := wait_loop_finds oid key bb t
    [("idNum", Value.vStr id), ("all", Value.vStr "None")] net timeout per cl hkey
    k jP cd l x (c0 + 1) cl (timeout.natAbs + 1) hkfuel
    (by intro i hi
        have h1 : (i : Int) * per ≤ (k : Int) * per := by
          apply mul_le_mul_of_nonneg_right _ (by linarith)
          exact_mod_cast hi
        have h2 : (i : Int) * per < timeout := lt_of_le_of_lt h1 htime
        linarith)
    hP hjP hcd hnl hlist hlast
  rw [hstart]
  refine ⟨hloop.1, ?_⟩
  have heS : isPoll bb (Event.httpGet (bb ++ "/api/setStatus")
      (sentParams key [("idNum", Value.vStr id), ("status", Value.vStr "send")])) = false :=
    isPoll_not_poll bb "/api/setStatus" _ (by decide)
  simp [List.countP_cons, heS, hloop.2]

/-- C7 witness: the second poll presents `["1111", "2222"]`; the call
returns `"2222"` and issues exactly two poll requests. -/
theorem c7_witness :
    (wait_sms_code ⟨0, "key", some "B", 10⟩ "79991112233" 60 5 wSecondPollList).1
      = Except.ok (some (Json.str "2222")) ∧
    ((wait_sms_code ⟨0, "key", some "B", 10⟩ "79991112233" 60 5 wSecondPollList).2.2.2.countP
        (fun e => isPoll "B" e)) = 2 :=
  c7_list_code_returns_last_and_stops 0 "key" "B" "79991112233" 10 wSecondPollList.net 0 0
    60 5 (Json.obj [("status", Json.str "ok")]) (Json.str "ok")
    (fun i => match i with
      | 0 => Json.obj [("smsCode", Json.null)]
      | _ + 1 => Json.obj [("smsCode", Json.arr [Json.str "1111", Json.str "2222"])])
    (fun i => match i with
      | 0 => Json.null
      | _ + 1 => Json.arr [Json.str "1111", Json.str "2222"])
    1 [Json.str "1111", Json.str "2222"] (Json.str "2222")
    (by decide) (by norm_num) (by norm_num)
    (fun q => rfl) rfl rfl
    (fun i hi q => match i, hi with
      | 0, _ => rfl
      | 1, _ => rfl
      | n + 2, h => absurd h (by omega))
    (fun i hi => match i, hi with
      | 0, _ => rfl
      | 1, _ => rfl
      | n + 2, h => absurd h (by omega))
    (fun i hi => match i, hi with
      | 0, _ => rfl
      | 1, _ => rfl
      | n + 2, h => absurd h (by omega))
    (fun i hi l2 => match i, hi with
      | 0, _ => fun h => Json.noConfusion h
      | n + 1, h => absurd h (by omega))
    rfl rfl

theorem try_mirrors_no_send_status (uri : String) (ps : Params) (l : List String) (w : World)
    (h : hasSendStatus ps = false) :
    ∀ e ∈ (try_mirrors uri ps l w).2.2.2, isSendStatus e = false := by
  induction l generalizing w with
  | nil =>
      intro e he
      simp [try_mirrors, _send_request] at he
  | cons b rest ih =>
      intro e he
      cases hn : w.net w.counter (b ++ uri) ps with
      | netFail =>
          rcases hT : try_mirrors uri ps rest { w with counter := w.counter + 1 } with
            ⟨r2, pin, w3, ev2⟩
          simp only [try_mirrors, _send_request, hn, hT, List.cons_append,
            List.nil_append] at he
          rcases List.mem_cons.mp he with rfl | he2
          · simp [isSendStatus, h]
          · have hih := ih { w with counter := w.counter + 1 }
            rw [hT] at hih
            exact hih e he2
      | body j =>
          cases hc : classifyResponse j with
          | ok j2 =>
              simp only [try_mirrors, _send_request, hn, hc] at he
              rcases List.mem_cons.mp he with rfl | he2
              · simp [isSendStatus, h]
              · simp at he2
          | error e2 =>
              cases e2 with
              | valueError msg =>
                  rcases hT : try_mirrors uri ps rest { w with counter := w.counter + 1 } with
                    ⟨r2, pin, w3, ev2⟩
                  simp only [try_mirrors, _send_request, hn, hc, hT, List.cons_append,
                    List.nil_append] at he
                  rcases List.mem_cons.mp he with rfl | he2
                  · simp [isSendStatus, h]
                  · have hih := ih { w with counter := w.counter + 1 }
                    rw [hT] at hih
                    exact hih e he2
              | typeError msg =>
                  simp only [try_mirrors, _send_request, hn, hc] at he
                  rcases List.mem_cons.mp he with rfl | he2
                  · simp [isSendStatus, h]
                  · simp at he2
              | keyError k2 =>
                  simp only [try_mirrors, _send_request, hn, hc] at he
                  rcases List.mem_cons.mp he with rfl | he2
                  · simp [isSendStatus, h]
                  · simp at he2
              | indexError =>
                  simp only [try_mirrors, _send_request, hn, hc] at he
                  rcases List.mem_cons.mp he with rfl | he2
                  · simp [isSendStatus, h]
                  · simp at he2
              | attributeError msg =>
                  simp only [try_mirrors, _send_request, hn, hc] at he
                  rcases List.mem_cons.mp he with rfl | he2
                  · simp [isSendStatus, h]
                  · simp at he2
              | vakSmsBadRequest err =>
                  simp only [try_mirrors, _send_request, hn, hc] at he
                  rcases List.mem_cons.mp he with rfl | he2
                  · simp [isSendStatus, h]
                  · simp at he2

theorem create_request_no_send_status (self : Vaksms) (uri : String) (ps : Params)
    (req : Bool) (w : World)
    (h : hasSendStatus (sentParams self.api_key ps) = false) :
    ∀ e ∈ (create_request self uri ps req w).2.2.2, isSendStatus e = false := by
  intro e he
  by_cases hv : req = true ∧ self.api_key = ""
  · simp only [create_request, if_pos hv] at he
    simp at he
  · cases hb : self.base_url with
    | none =>
        have hd := create_request_discovery self uri ps req w hb hv
        rw [hd] at he
        exact try_mirrors_no_send_status uri (sentParams self.api_key ps) base_urls w h e he
    | some bb =>
        have hp := create_request_pinned self bb uri ps req w hb hv
        rw [hp] at he
        rcases List.mem_cons.mp he with rfl | he2
        · simp [isSendStatus, h]
        · simp at he2

theorem wait_loop_no_send_status (ps : Params) (timeout per st : Int)
    (h : ∀ a, hasSendStatus (sentParams a ps) = false) :
    ∀ (fuel : Nat) (self : Vaksms) (w : World),
    ∀ e ∈ (wait_loop ps timeout per st fuel self w).2.2.2, isSendStatus e = false := by
  intro fuel
  induction fuel with
  | zero =>
      intro self w e he
      simp [wait_loop] at he
  | succ f ih =>
      intro self w e he
      by_cases hcl : w.clock - st < timeout
      · rcases hcr : create_request self "/api/getSmsCode/" ps true
            { w with clock := w.clock + per } with ⟨r, s2, w2, ev⟩
        have hev : ∀ e2 ∈ ev, isSendStatus e2 = false := by
          have h5 := create_request_no_send_status self "/api/getSmsCode/" ps true
            { w with clock := w.clock + per } (h self.api_key)
          rw [hcr] at h5
          exact h5
        cases r with
        | error e3 =>
            simp [wait_loop, hcl, hcr] at he
            rcases he with rfl | he2
            · rfl
            · exact hev e he2
        | ok response =>
            cases hgi : getItem response "smsCode" with
            | error e3 =>
                simp [wait_loop, hcl, hcr, hgi] at he
                rcases he with rfl | he2
                · rfl
                · exact hev e he2
            | ok sms =>
                rcases hT : wait_loop ps timeout per st f s2 w2 with ⟨r2, s3, w3, ev2⟩
                have hih : ∀ e2 ∈ ev2, isSendStatus e2 = false := by
                  have h5 := ih s2 w2
                  rw [hT] at h5
                  exact h5
                cases sms with
                | arr l =>
                    cases hl : l.getLast? with
                    | some x =>
                        simp [wait_loop, hcl, hcr, hgi, hl] at he
                        rcases he with rfl | he2
                        · rfl
                        · exact hev e he2
                    | none =>
                        simp [wait_loop, hcl, hcr, hgi, hl] at he
                        rcases he with rfl | he2
                        · rfl
                        · exact hev e he2
                | null =>
                    simp [wait_loop, hcl, hcr, hgi, hT] at he
                    rcases he with rfl | he2 | he3
                    · rfl
                    · exact hev e he2
                    · exact hih e he3
                | bool b4 =>
                    simp [wait_loop, hcl, hcr, hgi, hT] at he
                    rcases he with rfl | he2 | he3
                    · rfl
                    · exact hev e he2
                    · exact hih e he3
                | num n4 =>
                    simp [wait_loop, hcl, hcr, hgi, hT] at he
                    rcases he with rfl | he2 | he3
                    · rfl
                    · exact hev e he2
                    · exact hih e he3
                | str s5 =>
                    simp [wait_loop, hcl, hcr, hgi, hT] at he
                    rcases he with rfl | he2 | he3
                    · rfl
                    · exact hev e he2
                    · exact hih e he3
                | obj fs =>
                    simp [wait_loop, hcl, hcr, hgi, hT] at he
                    rcases he with rfl | he2 | he3
                    · rfl
                    · exact hev e he2
                    · exact hih e he3
      · simp [wait_loop, hcl] at he

/-- C8: every `wait_sms_code` invocation whose status transition goes out
at all puts it first: the head of the event trace is the single HTTP
request to `/api/setStatus` carrying `status=send` and the number's
`idNum`, and no event after it — no sleep, no poll, no discovery request —
is a `send` status transition. -/
theorem c8_send_transition_first
    (oid : Nat) (key bb id : String) (t : Int) (timeout per : Int)
    (net : Nat → String → Params → NetResult) (c0 : Nat) (cl : Int)
    (jS stv : Json)
    (hkey : key ≠ "")
    (hS : ∀ q, net c0 (bb ++ "/api/setStatus") q = NetResult.body jS)
    (hjS : classifyResponse jS = Except.ok jS)
    (hst : getItem jS "status" = Except.ok stv) :
    (wait_sms_code ⟨oid, key, some bb, t⟩ id timeout per ⟨net, c0, cl⟩).2.2.2.head?
      = some (Event.httpGet (bb ++ "/api/setStatus")
          (sentParams key [("idNum", Value.vStr id), ("status", Value.vStr "send")])) ∧
    hasSendStatus (sentParams key [("idNum", Value.vStr id), ("status", Value.vStr "send")])
      = true ∧
    ("idNum", Value.vStr id)
      ∈ sentParams key [("idNum", Value.vStr id), ("status", Value.vStr "send")] ∧
    ∀ e ∈ (wait_sms_code ⟨oid, key, some bb, t⟩ id timeout per ⟨net, c0, cl⟩).2.2.2.tail,
      isSendStatus e = false := by
  have hstart := wait_sms_code_ok_start oid key bb id t net c0 cl jS stv timeout per
    hkey hS hjS hst
  rw [hstart]
  refine ⟨rfl, ?_, ?_, ?_⟩
  · simp [sentParams, filterNone, hasSendStatus, hkey]
  · simp [sentParams, filterNone, hkey]
  · intro e he
    have hps : ∀ a, hasSendStatus (sentParams a
        [("idNum", Value.vStr id), ("all", Value.vStr "None")]) = false := by
      intro a
      by_cases ha : a = "" <;> simp [sentParams, filterNone, hasSendStatus, ha]
    exact wait_loop_no_send_status
      [("idNum", Value.vStr id), ("all", Value.vStr "None")] timeout per cl hps
      (timeout.natAbs + 1) ⟨oid, key, some bb, t⟩ ⟨net, c0 + 1, cl⟩ e he

/-- C8 witness: the theorem in the concrete never-a-code world; the tail
of the trace (a sleep, then a poll) contains no `send` transition. -/
theorem c8_witness :
    (wait_sms_code ⟨0, "key", some "B", 10⟩ "79991112233" 5 5 wNeverCode).2.2.2.head?
      = some (Event.httpGet ("B" ++ "/api/setStatus")
          (sentParams "key"
            [("idNum", Value.vStr "79991112233"), ("status", Value.vStr "send")])) ∧
    hasSendStatus (sentParams "key"
        [("idNum", Value.vStr "79991112233"), ("status", Value.vStr "send")]) = true ∧
    isSendStatus (Event.sleep 5) = false := by
  have h := c8_send_transition_first 0 "key" "B" "79991112233" 10 5 5 wNeverCode.net 0 100
    (Json.obj [("status", Json.str "ok")]) (Json.str "ok")
    (by decide) (fun q => rfl) rfl rfl
  refine ⟨h.1, h.2.1, ?_⟩
  refine h.2.2.2 (Event.sleep 5) ?_
  show Event.sleep 5 ∈ [Event.sleep 5,
    Event.httpGet ("B" ++ "/api/getSmsCode/")
      (sentParams "key" [("idNum", Value.vStr "79991112233"), ("all", Value.vStr "None")])]
  exact List.mem_cons_self _ _

end Synkvaksms
